import Mathlib

/-!
Shallow embedding of the qqp acquisition-and-transformation pipeline
(`src/download.py`, `src/extract.py`) and verification of the spec claims.

Rows of the delimited source files are modelled as lists of string fields;
file contents as lists of rows; the per-year directory layout as lookup
functions; the effects of `merge_csv_years` on the filesystem as an explicit
operation trace.  Fallible Python calls are modelled with `Option` (fuel for
unbounded recursion) and an explicit `raised` outcome for uncaught exceptions.
-/

/-- A data row: the fields of one delimited record, positionally. -/
abbrev Row : Type := List String

/-- The 15 schema column names from `COLUMNS` in `extract.py` lines 23-39.
The input files have no header row; `pd.read_csv(..., header=None,
names=COLUMNS.keys())` applies these names positionally, so `estado` is
column index 11. -/
def column_names : List String :=
  ["producto", "presentacion", "marca", "categoria", "catalogo",
   "precio", "fecha_registro", "cadena_comercial", "giro",
   "nombre_comercial", "direccion", "estado", "municipio",
   "latitud", "longitud"]

/-- The header line pandas `to_csv(..., header=True)` emits for a frame read
with `names=COLUMNS.keys()`: the (unnamed) index column first, then the 15
schema names.  (`to_csv` is called without `index=False` in
`_csv_chunk_filter_and_append`, so the row index is written too.) -/
def header_line : Row := "" :: column_names

/-- Upper-casing of a string, character by character (the semantics of
`String.toUpper`, written with structural recursion so that it reduces). -/
def py_upper (s : String) : String :=
  String.mk (s.toList.map Char.toUpper)

/-- The row predicate of `extract.py` line 100:
`chunk['estado'].fillna('').str.upper() == 'SONORA'`.  `estado` is positional
column 11; a missing value is treated as the empty string by `fillna('')`. -/
def estado_matches_sonora (row : Row) : Bool :=
  py_upper (row.getD 11 "") == "SONORA"

/-- The mask-and-`.loc` step of `extract.py` lines 100-101 applied to one
chunk: keep exactly the rows satisfying the estado predicate. -/
def chunk_mask_filter (chunk : List Row) : List Row :=
  chunk.filter estado_matches_sonora

/-- Pair each row with its global 0-based position in the input file,
starting from `k`.  Models the dataframe index that `pd.read_csv` assigns
across chunks (and that `to_csv` writes back, `index=True` by default). -/
def enum_rows (k : Nat) : List Row → List (Nat × Row)
  | [] => []
  | r :: rs => (k, r) :: enum_rows (k + 1) rs

/-- Split a list into consecutive chunks of size `n` (fuel-driven so the
definition is structural; the fuel `l.length` always suffices for `1 ≤ n`).
Models the `chunksize=` splitting of `pd.read_csv`. -/
def chunks_of_aux {α : Type} : Nat → Nat → List α → List (List α)
  | 0, _, _ => []
  | _ + 1, _, [] => []
  | fuel + 1, n, a :: t => (a :: t).take n :: chunks_of_aux fuel n ((a :: t).drop n)

/-- Chunking with enough fuel for every positive chunk size. -/
def chunks_of {α : Type} (n : Nat) (l : List α) : List (List α) :=
  chunks_of_aux l.length n l

/-- `_csv_chunk_filter_and_append` (`extract.py` lines 91-103): read the
input in chunks of `chunksize` rows, filter each chunk with the estado mask,
and for each non-empty filtered chunk append to the output file a header
line (`header=True`) followed by the kept rows, each prefixed by its
dataframe index (`to_csv` default `index=True`).  The result is the sequence
of lines appended to the per-year output file. -/
def csv_chunk_filter_and_append (chunksize : Nat) (rows : List Row) : List Row :=
  (chunks_of chunksize (enum_rows 0 rows)).flatMap (fun chunk =>
    let filtered := chunk.filter (fun ir => estado_matches_sonora ir.2)
    if filtered.isEmpty then []
    else header_line :: filtered.map (fun ir => Nat.repr ir.1 :: ir.2))

/-- Outcome of a Python call: a returned value, or an uncaught exception
propagating to the caller. -/
inductive PyOutcome (α : Type) where
  | ok : α → PyOutcome α
  | raised : String → PyOutcome α
deriving DecidableEq, Repr

/-- `download_file` (`download.py` lines 97-142), parameterised by oracles:
`valid k` is the result of `is_valid_rar` for the file written on attempt
`k`, and `metaOk k` tells whether `generate_download_metadata` succeeds on
attempt `k`.  The first argument of the recursion is fuel: `none` means the
recursion has not produced any result within that many attempts.  On an
invalid file the code unlinks it and recurses with no counter (line 128);
on a valid file it calls `generate_download_metadata` with no surrounding
`try` (lines 130-137) — a failure there propagates — and then returns the
file path (line 142). -/
def download_file_fuel (valid metaOk : Nat → Bool) (filename : String) :
    Nat → Nat → Option (PyOutcome String)
  | 0, _ => none
  | fuel + 1, attempt =>
    if valid attempt then
      if metaOk attempt then some (PyOutcome.ok filename)
      else some (PyOutcome.raised "metadata")
    else download_file_fuel valid metaOk filename fuel (attempt + 1)

/-- A directory entry as seen by `Path.iterdir`: a name and whether it is a
regular file. -/
structure FsEntry where
  name : String
  is_file : Bool
deriving DecidableEq, Repr

/-- `pathlib.PurePath.suffix` of a file name: the part from the last dot,
provided that dot is neither the first nor the last character. -/
def path_suffix (name : String) : String :=
  let cs := name.toList
  let n := cs.length
  match ((List.range n).filter (fun i => cs.getD i ' ' == '.')).getLast? with
  | none => ""
  | some i => if 0 < i && i + 1 < n then String.mk (cs.drop i) else ""

/-- The archive listing of `check_existing` (`download.py` lines 53-55):
names of regular files whose suffix is one of `.rar`, `.RAR`, `.zip`,
`.ZIP`. -/
def archive_names (entries : List FsEntry) : List String :=
  (entries.filter (fun f =>
    f.is_file &&
      (path_suffix f.name == ".rar" || path_suffix f.name == ".RAR" ||
       path_suffix f.name == ".zip" || path_suffix f.name == ".ZIP"))).map
    (fun f => f.name)

/-- `needle` occurs at the head of `hay`. -/
def chars_lead : List Char → List Char → Bool
  | [], _ => true
  | _ :: _, [] => false
  | a :: as, b :: bs => (a == b) && chars_lead as bs

/-- Python's substring test `needle in hay` on character lists. -/
def chars_contain : List Char → List Char → Bool
  | [], needle => chars_lead needle []
  | c :: t, needle => chars_lead needle (c :: t) || chars_contain t needle

/-- Python's `needle in hay` on strings. -/
def str_contains (hay needle : String) : Bool :=
  chars_contain hay.toList needle.toList

/-- The classification loop of `check_existing` (`download.py` lines 57-62):
each year is appended to `existing` when some archive name contains its
string form, otherwise to `missing`; input order is preserved.  Result:
`(missing, existing)`. -/
def check_existing_loop (names : List String) : List String → List String × List String
  | [] => ([], [])
  | y :: ys =>
    let r := check_existing_loop names ys
    if names.any (fun nm => str_contains nm y) then (r.1, y :: r.2)
    else (y :: r.1, r.2)

/-- `check_existing` (`download.py` lines 50-64): classify `years` against
the archive file names present in the directory listing `entries`.  A pure
function of the listing — it performs no filesystem modification. -/
def check_existing (years : List String) (entries : List FsEntry) :
    List String × List String :=
  check_existing_loop (archive_names entries) years

/-- `_is_empty_dir` (`extract.py` lines 80-81): `not any(path.rglob("*"))`
over the recursive listing of the directory. -/
def is_empty_dir_check (entries : List String) : Bool :=
  !(entries.any (fun _ => true))

/-- `process_extraction` (`extract.py` lines 124-142) restricted to its
extraction decision: `entries` is the recursive listing of the per-year
destination directory after the `mkdir(exist_ok=True)` (so `[]` when the
directory was missing or empty), `extract_ok` the outcome of
`extract_rar_file`.  Returns `(returned value, whether extract_rar_file was
invoked — i.e. whether the archive was opened)`.  When the directory is
non-empty the extraction branch is skipped and the function goes on to
dispatch filtering and return `True`. -/
def process_extraction (entries : List String) (extract_ok : Bool) : Bool × Bool :=
  if is_empty_dir_check entries then
    (if extract_ok then (true, true) else (false, true))
  else (true, false)

/-- What `pd.read_csv` yields for one filtered CSV file: `none` when the
read raises (caught at `extract.py` lines 175-176), `some rows`
otherwise. -/
abbrev FileRead : Type := Option (List Row)

/-- The per-year output directories as seen by `merge_csv_years`: `none`
when `QQP_<year>_son` does not exist, otherwise the glob-ordered list of its
CSV files. -/
abbrev YearLookup : Type := String → Option (List FileRead)

/-- A filesystem effect performed by `merge_csv_years`. -/
inductive FsOp where
  | touch : String → FsOp
  | write : String → List Row → FsOp
deriving DecidableEq, Repr

/-- The combined output file name of `merge_csv_years`
(`extract.py` lines 160-161). -/
def merge_out_name (years : List String) : String :=
  "qqp_" ++ String.intercalate "-" years ++ "_sonora.csv"

/-- The accumulation loop of `merge_csv_years` (`extract.py` lines 164-176):
missing year directories are skipped, and within a year each successfully
read CSV file contributes its dataframe, in encounter order. -/
def collect_dfs (lookup : YearLookup) : List String → List (List Row)
  | [] => []
  | y :: ys =>
    match lookup y with
    | none => collect_dfs lookup ys
    | some files => files.filterMap id ++ collect_dfs lookup ys

/-- `merge_csv_years` (`extract.py` lines 158-186): touch the combined
output file, gather the readable per-year CSV files, return `None` when
nothing was gathered, otherwise concatenate and write.  The second component
is the trace of filesystem effects, in order. -/
def merge_csv_years (lookup : YearLookup) (years : List String) :
    Option String × List FsOp :=
  let out := merge_out_name years
  let dfs := collect_dfs lookup years
  if dfs.isEmpty then (none, [FsOp.touch out])
  else (some out, [FsOp.touch out, FsOp.write out dfs.flatten])

/-- Number of CSV files found (globbed) across the requested years:
readable or not, in existing directories only. -/
def files_found (lookup : YearLookup) : List String → Nat
  | [] => 0
  | y :: ys => ((lookup y).getD []).length + files_found lookup ys

/-- Number of CSV files successfully read across the requested years. -/
def files_read (lookup : YearLookup) : List String → Nat
  | [] => 0
  | y :: ys => (((lookup y).getD []).filterMap id).length + files_read lookup ys

/-- Every file found in an existing directory of the requested years is
readable. -/
def all_readable (lookup : YearLookup) (years : List String) : Bool :=
  years.all (fun y => ((lookup y).getD []).all (fun f => f.isSome))

/-- Modelled from the spec: "concatenation of all FilteredOutput rows for a
set of years, in year order, first-encountered-file order within a year"
(spec-side formula, to be compared with the code-side accumulation). -/
def spec_merge_rows (lookup : YearLookup) (years : List String) : List Row :=
  (years.map (fun y =>
    ((((lookup y).getD []).map (fun f => f.getD [])).flatten))).flatten

/-- Contents of file `name` after replaying an effect trace on an initially
absent file: `touch` creates it empty if absent, `write` replaces its
contents. -/
def final_contents (ops : List FsOp) (name : String) : Option (List Row) :=
  ops.foldl (fun acc op =>
    match op with
    | FsOp.touch n =>
      if n == name then (match acc with | none => some [] | some c => some c) else acc
    | FsOp.write n rows => if n == name then some rows else acc) none

/-- A 15-field row in the fixed positional schema, with the given `estado`
value (column 11) and a distinguishing tag in the first column. -/
def mk_row (estado : String) (tag : String) : Row :=
  [tag, "600 ml", "marca", "categoria", "catalogo", "10.5", "2019-01-07",
   "cadena", "giro", "nombre", "direccion", estado, "municipio",
   "29.07", "-110.95"]

/-- Row whose estado is `"Sonora"`. -/
def row_son_up : Row := mk_row "Sonora" "refresco"

/-- Row whose estado is `"sonora"`. -/
def row_son_low : Row := mk_row "sonora" "leche"

/-- Row whose estado is empty. -/
def row_empty : Row := mk_row "" "pan"

/-- Row whose estado is `"Jalisco"`. -/
def row_jal : Row := mk_row "Jalisco" "azucar"

/-- A synthetic 5-row input of which exactly rows 0 and 3 match the region
predicate. -/
def sample_rows5 : List Row :=
  [mk_row "Sonora" "arroz", mk_row "Jalisco" "frijol", mk_row "" "atun",
   mk_row "sonora" "cafe", mk_row "Nuevo Leon" "huevo"]

/-- A year lookup with one directory containing a single unreadable CSV
file. -/
def lk_unreadable : YearLookup :=
  fun y => if y == "2019" then some [none] else none

/-- A year lookup with 2019 files `a(2 rows)`, `b(3 rows)` and 2020 file
`c(1 row)`, all readable. -/
def lk_example : YearLookup :=
  fun y =>
    if y == "2019" then some [some [["a1"], ["a2"]], some [["b1"], ["b2"], ["b3"]]]
    else if y == "2020" then some [some [["c1"]]]
    else none

/-- A year lookup where every directory is missing. -/
def lk_none : YearLookup := fun _ => none

theorem enum_rows_length : ∀ (k : Nat) (l : List Row), (enum_rows k l).length = l.length := by
  intro k l
  induction l generalizing k with
  | nil => rfl
  | cons r rs ih => simp [enum_rows, ih]

theorem enum_rows_filter_map_snd (p : Row → Bool) :
    ∀ (k : Nat) (l : List Row),
      ((enum_rows k l).filter (fun ir => p ir.2)).map Prod.snd = l.filter p := by
  intro k l
  induction l generalizing k with
  | nil => rfl
  | cons r rs ih =>
    simp only [enum_rows, List.filter]
    cases hp : p r <;> simp [hp, ih]

theorem enum_rows_filter_length (p : Row → Bool) (k : Nat) (l : List Row) :
    ((enum_rows k l).filter (fun ir => p ir.2)).length = (l.filter p).length := by
  rw [← enum_rows_filter_map_snd p k l, List.length_map]

theorem snd_mem_of_mem_enum_rows :
    ∀ (k : Nat) (l : List Row) (ir : Nat × Row), ir ∈ enum_rows k l → ir.2 ∈ l := by
  intro k l
  induction l generalizing k with
  | nil => intro ir h; cases h
  | cons r rs ih =>
    intro ir h
    rcases h with _ | ⟨_, hmem⟩
    · exact List.mem_cons_self _ _
    · exact List.mem_cons_of_mem _ (ih _ _ hmem)

theorem chunks_of_aux_nil {α : Type} : ∀ (fuel n : Nat), chunks_of_aux fuel n ([] : List α) = [] := by
  intro fuel n
  cases fuel <;> rfl

theorem chunks_of_single {α : Type} (n : Nat) (l : List α) (hne : l ≠ []) (hle : l.length ≤ n) :
    chunks_of n l = [l] := by
  cases l with
  | nil => exact absurd rfl hne
  | cons a t =>
    show chunks_of_aux (t.length + 1) n (a :: t) = [a :: t]
    simp only [chunks_of_aux]
    rw [List.take_of_length_le hle, List.drop_eq_nil_of_le hle, chunks_of_aux_nil]

/-- Claim C1: for a URL whose downloaded archive always fails
`is_valid_rar` verification, no amount of fuel makes the recursion of
`download_file` (`download.py` line 128) produce a result: the retry is
unbounded and the function never terminates, let alone with a terminal
integrity error after a fixed number of attempts. -/
theorem download_file_diverges_on_always_corrupt :
    ∀ (metaOk : Nat → Bool) (filename : String) (fuel attempt : Nat),
      download_file_fuel (fun _ => false) metaOk filename fuel attempt = none := by
  intro metaOk filename fuel
  induction fuel with
  | zero => intro attempt; rfl
  | succ n ih =>
    intro attempt
    simp only [download_file_fuel, Bool.false_eq_true, if_false]
    exact ih (attempt + 1)

/-- Claim C2: an input whose filtering produces two non-empty chunks
appended to the same output file receives the CSV header line once per
chunk (`to_csv(..., header=True)` at `extract.py` line 103), hence twice,
not exactly once. -/
theorem header_duplicated_across_chunks :
    (csv_chunk_filter_and_append 1 [row_son_up, row_son_low]).count header_line = 2
    ∧ (chunks_of 1 (enum_rows 0 [row_son_up, row_son_low])).length = 2 := by
  exact ⟨by decide, by decide⟩

/-- Claim C4: a row of a chunk is kept by the mask of `extract.py`
lines 100-101 iff its `estado` column (index 11, missing treated as empty),
upper-cased, equals `"SONORA"`; on the four estado variants `"Sonora"`,
`"sonora"`, `""`, `"Jalisco"` exactly the two Sonora rows are kept, in
order. -/
theorem row_filter_iff_sonora :
    (∀ (chunk : List Row) (r : Row),
        r ∈ chunk_mask_filter chunk ↔ r ∈ chunk ∧ py_upper (r.getD 11 "") = "SONORA")
    ∧ chunk_mask_filter [row_son_up, row_son_low, row_empty, row_jal] =
        [row_son_up, row_son_low] := by
  constructor
  · intro chunk r
    simp [chunk_mask_filter, estado_matches_sonora, List.mem_filter]
  · decide

/-- Claim C3, counterexample: on a concrete 5-row synthetic input with
exactly 2 matching rows (each row having the 15 schema columns), the lines
appended by `_csv_chunk_filter_and_append` are not the 2 matching rows:
each appended data row has 16 fields, because `to_csv` (default
`index=True`, `extract.py` line 103) prepends the dataframe index as an
extra column. -/
theorem filter_output_adds_index_column :
    (csv_chunk_filter_and_append 10000 sample_rows5).drop 1 ≠
        sample_rows5.filter estado_matches_sonora
    ∧ ((csv_chunk_filter_and_append 10000 sample_rows5).getD 1 []).length = 16
    ∧ sample_rows5.length = 5
    ∧ sample_rows5.all (fun r => r.length == 15) = true
    ∧ (sample_rows5.filter estado_matches_sonora).length = 2 := by
  exact ⟨by decide, by decide, by decide, by decide, by decide⟩

/-- Claim C5, counterexample: with a first download that passes integrity
verification but a metadata write that fails, `download_file` propagates
the metadata exception (the call at `download.py` lines 130-137 is not
guarded) instead of returning the downloaded file's path. -/
theorem metadata_failure_fails_download :
    download_file_fuel (fun _ => true) (fun _ => false) "QQP_2019.rar" 1 0 =
        some (PyOutcome.raised "metadata")
    ∧ download_file_fuel (fun _ => true) (fun _ => false) "QQP_2019.rar" 1 0 ≠
        some (PyOutcome.ok "QQP_2019.rar") := by
  exact ⟨rfl, by decide⟩

/-- Claim C5, amended: on an attempt whose archive passes verification,
`download_file` returns the file path when the metadata write succeeds, and
raises (propagates the metadata error, returning no path) when the metadata
write fails. -/
theorem download_metadata_propagation :
    ∀ (valid metaOk : Nat → Bool) (filename : String) (fuel attempt : Nat),
      valid attempt = true →
      (metaOk attempt = false →
        download_file_fuel valid metaOk filename (fuel + 1) attempt =
          some (PyOutcome.raised "metadata"))
      ∧ (metaOk attempt = true →
        download_file_fuel valid metaOk filename (fuel + 1) attempt =
          some (PyOutcome.ok filename)) := by
  intro valid metaOk filename fuel attempt hv
  constructor <;> intro hm <;> simp [download_file_fuel, hv, hm]

/-- Witness for the amended C5 theorem at concrete oracles. -/
theorem download_metadata_propagation_witness :
    download_file_fuel (fun _ => true) (fun _ => false) "QQP_2019.rar" 3 0 =
        some (PyOutcome.raised "metadata")
    ∧ download_file_fuel (fun _ => true) (fun _ => true) "QQP_2019.rar" 3 0 =
        some (PyOutcome.ok "QQP_2019.rar") :=
  ⟨(download_metadata_propagation (fun _ => true) (fun _ => false) "QQP_2019.rar" 2 0 rfl).1 rfl,
   (download_metadata_propagation (fun _ => true) (fun _ => true) "QQP_2019.rar" 2 0 rfl).2 rfl⟩

theorem check_existing_loop_eq_filter :
    ∀ (names years : List String),
      check_existing_loop names years =
        (years.filter (fun z => !(names.any (fun nm => str_contains nm z))),
         years.filter (fun z => names.any (fun nm => str_contains nm z))) := by
  intro names years
  induction years with
  | nil => rfl
  | cons y ys ih =>
    simp only [check_existing_loop, ih, List.filter_cons]
    cases h : names.any (fun nm => str_contains nm y) <;> simp [h]

/-- Claim C8: `check_existing` partitions the input years: a year lands in
the `existing` component iff some archive filename of the directory listing
contains the year's string form as a substring, and in the `missing`
component iff no archive filename does.  The embedding is a pure function
of the directory listing, so the call modifies no filesystem state. -/
theorem check_existing_partition :
    ∀ (years : List String) (entries : List FsEntry) (y : String),
      (y ∈ (check_existing years entries).2 ↔
        y ∈ years ∧ ∃ nm ∈ archive_names entries, str_contains nm y = true)
      ∧ (y ∈ (check_existing years entries).1 ↔
        y ∈ years ∧ ¬ ∃ nm ∈ archive_names entries, str_contains nm y = true) := by
  intro years entries y
  rw [check_existing, check_existing_loop_eq_filter]
  constructor
  · simp [List.mem_filter, List.any_eq_true]
  · simp [List.mem_filter, List.any_eq_true]

/-- Claim C9: when the extraction destination directory is non-empty,
`process_extraction` skips unpacking — `extract_rar_file` is not invoked,
the archive is not opened — and returns success; conversely the archive is
opened only when the destination listing is empty. -/
theorem extraction_skips_nonempty_dir :
    ∀ (entries : List String) (ok : Bool),
      (entries ≠ [] → process_extraction entries ok = (true, false))
      ∧ ((process_extraction entries ok).2 = true → entries = []) := by
  intro entries ok
  cases entries with
  | nil =>
    exact ⟨fun h => absurd rfl h, fun _ => rfl⟩
  | cons e es =>
    constructor
    · intro _; rfl
    · intro h
      simp [process_extraction, is_empty_dir_check] at h

/-- Witness for the C9 theorem: a destination with one extracted file is
not re-extracted even if extraction would fail, and reports success. -/
theorem extraction_skips_nonempty_dir_witness :
    process_extraction ["QQP_2019/precios.csv"] false = (true, false) :=
  (extraction_skips_nonempty_dir ["QQP_2019/precios.csv"] false).1 (by decide)

theorem collect_dfs_length_eq_files_read (lookup : YearLookup) :
    ∀ years : List String,
      (collect_dfs lookup years).length = files_read lookup years := by
  intro years
  induction years with
  | nil => rfl
  | cons y ys ih =>
    cases h : lookup y with
    | none => simp [collect_dfs, files_read, h, ih]
    | some files => simp [collect_dfs, files_read, h, ih]

theorem files_read_le_files_found (lookup : YearLookup) :
    ∀ years : List String, files_read lookup years ≤ files_found lookup years := by
  intro years
  induction years with
  | nil => exact Nat.le_refl 0
  | cons y ys ih =>
    exact Nat.add_le_add (List.length_filterMap_le id _) ih

theorem collect_dfs_eq_nil_of_files_found_zero (lookup : YearLookup)
    (years : List String) (h : files_found lookup years = 0) :
    collect_dfs lookup years = [] := by
  have h2 : files_read lookup years = 0 :=
    Nat.le_antisymm (h ▸ files_read_le_files_found lookup years) (Nat.zero_le _)
  have h3 := collect_dfs_length_eq_files_read lookup years
  rw [h2] at h3
  exact List.length_eq_zero.mp h3

theorem filterMap_id_eq_map_getD :
    ∀ files : List FileRead, (∀ f ∈ files, f.isSome = true) →
      files.filterMap id = files.map (fun f => f.getD []) := by
  intro files h
  induction files with
  | nil => rfl
  | cons f fs ih =>
    cases f with
    | none =>
      have := h none (List.mem_cons_self _ _)
      simp at this
    | some v =>
      simp only [List.filterMap_cons, List.map_cons, id_eq, Option.getD_some]
      rw [ih (fun g hg => h g (List.mem_cons_of_mem _ hg))]

theorem files_read_eq_found_of_all_readable (lookup : YearLookup) :
    ∀ years : List String, all_readable lookup years = true →
      files_read lookup years = files_found lookup years := by
  intro years
  induction years with
  | nil => intro _; rfl
  | cons y ys ih =>
    intro h
    have h2 := h
    simp only [all_readable, List.all_cons, Bool.and_eq_true] at h2
    obtain ⟨hy, hys⟩ := h2
    have hmap := filterMap_id_eq_map_getD ((lookup y).getD [])
      (List.all_eq_true.mp hy)
    simp only [files_read, files_found, hmap, List.length_map]
    rw [ih hys]

theorem collect_dfs_flatten_eq_spec (lookup : YearLookup) :
    ∀ years : List String, all_readable lookup years = true →
      (collect_dfs lookup years).flatten = spec_merge_rows lookup years := by
  intro years
  induction years with
  | nil => intro _; rfl
  | cons y ys ih =>
    intro h
    have h2 := h
    simp only [all_readable, List.all_cons, Bool.and_eq_true] at h2
    obtain ⟨hy, hys⟩ := h2
    have hmap := filterMap_id_eq_map_getD ((lookup y).getD [])
      (List.all_eq_true.mp hy)
    cases hl : lookup y with
    | none =>
      simp only [collect_dfs, spec_merge_rows, hl, List.map_cons,
        List.flatten_cons, Option.getD_none, List.map_nil, List.flatten_nil,
        List.nil_append]
      exact ih hys
    | some files =>
      rw [hl] at hmap
      simp only [collect_dfs, spec_merge_rows, hl, List.map_cons,
        List.flatten_cons, Option.getD_some, List.flatten_append] at hmap ⊢
      rw [hmap]
      have := ih hys
      simp only [spec_merge_rows] at this
      rw [this]

/-- Claim C6, counterexample: with one existing year directory containing
exactly one CSV file that fails to read, `merge_csv_years` returns the
no-inputs result even though one filtered CSV file was found — refuting
"returns the no-inputs error iff zero filtered CSV files were found". -/
theorem merge_none_with_file_found :
    (merge_csv_years lk_unreadable ["2019"]).1 = none
    ∧ files_found lk_unreadable ["2019"] = 1 := by
  exact ⟨rfl, rfl⟩

/-- Claim C6, amended: missing year directories contribute nothing and the
scan continues; `merge_csv_years` returns the no-inputs result iff zero
CSV files were successfully read across the requested years (a
found-but-unreadable file counts as not read), and otherwise returns the
merged output path. -/
theorem merge_no_inputs_iff_read :
    ∀ (lookup : YearLookup) (years : List String),
      ((merge_csv_years lookup years).1 = none ↔ files_read lookup years = 0)
      ∧ (files_read lookup years ≠ 0 →
          (merge_csv_years lookup years).1 = some (merge_out_name years))
      ∧ (∀ (y : String) (ys : List String), lookup y = none →
          collect_dfs lookup (y :: ys) = collect_dfs lookup ys) := by
  intro lookup years
  refine ⟨?_, ?_, ?_⟩
  · rw [← collect_dfs_length_eq_files_read]
    cases hc : collect_dfs lookup years with
    | nil => simp [merge_csv_years, hc]
    | cons d ds => simp [merge_csv_years, hc]
  · intro hne
    rw [← collect_dfs_length_eq_files_read] at hne
    cases hc : collect_dfs lookup years with
    | nil => rw [hc] at hne; exact absurd rfl hne
    | cons d ds => simp [merge_csv_years, hc]
  · intro y ys h
    simp [collect_dfs, h]

/-- Witness for the amended C6 theorem: a year with readable files yields
the merged output path, and a missing year directory is skipped. -/
theorem merge_no_inputs_iff_read_witness :
    (merge_csv_years lk_example ["2019"]).1 = some (merge_out_name ["2019"])
    ∧ collect_dfs lk_unreadable ["2077", "2019"] = collect_dfs lk_unreadable ["2019"] :=
  ⟨(merge_no_inputs_iff_read lk_example ["2019"]).2.1 (by decide),
   (merge_no_inputs_iff_read lk_unreadable ["2019"]).2.2 "2077" ["2019"] rfl⟩

/-- Claim C7: when every found file is readable and at least one file was
found, `merge_csv_years` returns the combined output path and writes the
concatenation of all filtered rows in year order as given and
first-encountered-file order within each year. -/
theorem merge_ordering_concat :
    ∀ (lookup : YearLookup) (years : List String),
      all_readable lookup years = true →
      files_found lookup years ≠ 0 →
      merge_csv_years lookup years =
        (some (merge_out_name years),
         [FsOp.touch (merge_out_name years),
          FsOp.write (merge_out_name years) (spec_merge_rows lookup years)]) := by
  intro lookup years hall hnz
  have hread : files_read lookup years ≠ 0 := by
    rw [files_read_eq_found_of_all_readable lookup years hall]
    exact hnz
  have hc : collect_dfs lookup years ≠ [] := by
    intro e
    apply hread
    rw [← collect_dfs_length_eq_files_read, e]
    rfl
  cases hcc : collect_dfs lookup years with
  | nil => exact absurd hcc hc
  | cons d ds =>
    have hspec : (collect_dfs lookup years).flatten = spec_merge_rows lookup years :=
      collect_dfs_flatten_eq_spec lookup years hall
    rw [hcc] at hspec
    simp [merge_csv_years, hcc, hspec]

/-- Witness for the C7 theorem: merging years 2019 (files a with 2 rows and
b with 3 rows) and 2020 (file c with 1 row) yields 6 rows in order
a, b, c. -/
theorem merge_ordering_concat_witness :
    merge_csv_years lk_example ["2019", "2020"] =
      (some (merge_out_name ["2019", "2020"]),
       [FsOp.touch (merge_out_name ["2019", "2020"]),
        FsOp.write (merge_out_name ["2019", "2020"])
          (spec_merge_rows lk_example ["2019", "2020"])])
    ∧ spec_merge_rows lk_example ["2019", "2020"] =
        [["a1"], ["a2"], ["b1"], ["b2"], ["b3"], ["c1"]] :=
  ⟨merge_ordering_concat lk_example ["2019", "2020"] (by decide) (by decide),
   by decide⟩

/-- Claim C10: when zero input CSV files are found across the requested
years, `merge_csv_years` still returns the no-inputs result, but the
combined output file has already been touched (`extract.py` line 162)
before the condition is detected, so replaying the effect trace leaves an
empty output file on disk. -/
theorem merge_touches_output_before_check :
    ∀ (lookup : YearLookup) (years : List String),
      files_found lookup years = 0 →
      (merge_csv_years lookup years).1 = none
      ∧ final_contents (merge_csv_years lookup years).2 (merge_out_name years) =
          some [] := by
  intro lookup years h
  have hc : collect_dfs lookup years = [] :=
    collect_dfs_eq_nil_of_files_found_zero lookup years h
  constructor
  · simp [merge_csv_years, hc]
  · simp [merge_csv_years, hc, final_contents]

/-- Witness for the C10 theorem: merging two years with no output
directories returns the no-inputs result yet leaves an empty combined
file. -/
theorem merge_touches_output_before_check_witness :
    (merge_csv_years lk_none ["2019", "2020"]).1 = none
    ∧ final_contents (merge_csv_years lk_none ["2019", "2020"]).2
        (merge_out_name ["2019", "2020"]) = some [] :=
  merge_touches_output_before_check lk_none ["2019", "2020"] rfl

/-- Claim C3, amended: for every 5-row input in the 15-column positional
schema with exactly 2 matching rows, the appended output is a single header
line followed by exactly the 2 matching rows with all 15 schema columns
preserved positionally — but each data row additionally carries one added
leading index column (the row's position in the input), so data rows have
16 fields. -/
theorem filter_round_trip_amended :
    ∀ rows : List Row,
      rows.length = 5 →
      (∀ r ∈ rows, r.length = 15) →
      (rows.filter estado_matches_sonora).length = 2 →
      (csv_chunk_filter_and_append 10000 rows).head? = some header_line
      ∧ ((csv_chunk_filter_and_append 10000 rows).drop 1).map (fun r => r.drop 1) =
          rows.filter estado_matches_sonora
      ∧ (∀ r ∈ (csv_chunk_filter_and_append 10000 rows).drop 1, r.length = 16) := by
  intro rows hlen hcols hmatch
  have hne : enum_rows 0 rows ≠ [] := by
    intro e
    have h5 := enum_rows_length 0 rows
    rw [e, hlen] at h5
    simp at h5
  have hle : (enum_rows 0 rows).length ≤ 10000 := by
    rw [enum_rows_length, hlen]
    omega
  have hch : chunks_of 10000 (enum_rows 0 rows) = [enum_rows 0 rows] :=
    chunks_of_single _ _ hne hle
  have hflen :
      ((enum_rows 0 rows).filter (fun ir => estado_matches_sonora ir.2)).length = 2 := by
    rw [enum_rows_filter_length]
    exact hmatch
  cases hfc : (enum_rows 0 rows).filter (fun ir => estado_matches_sonora ir.2) with
  | nil => rw [hfc] at hflen; simp at hflen
  | cons p ps =>
    have hout : csv_chunk_filter_and_append 10000 rows =
        header_line :: (p :: ps).map (fun ir => Nat.repr ir.1 :: ir.2) := by
      simp [csv_chunk_filter_and_append, hch, hfc]
    refine ⟨?_, ?_, ?_⟩
    · rw [hout]; rfl
    · rw [hout]
      simp only [List.drop_succ_cons, List.drop_zero, List.map_map]
      have : ((fun r : Row => r.drop 1) ∘ fun ir : Nat × Row => Nat.repr ir.1 :: ir.2) =
          Prod.snd := by
        funext ir
        rfl
      rw [this, ← hfc, enum_rows_filter_map_snd]
    · intro r hr
      rw [hout] at hr
      simp only [List.drop_succ_cons, List.drop_zero] at hr
      obtain ⟨ir, hir, hreq⟩ := List.mem_map.mp hr
      rw [← hfc] at hir
      have hmem : ir ∈ enum_rows 0 rows := (List.mem_filter.mp hir).1
      have hsnd : ir.2 ∈ rows := snd_mem_of_mem_enum_rows 0 rows ir hmem
      have h15 : ir.2.length = 15 := hcols ir.2 hsnd
      rw [← hreq]
      simp [h15]

/-- Witness for the amended C3 theorem at the concrete 5-row synthetic
input with 2 matching rows. -/
theorem filter_round_trip_amended_witness :
    ((csv_chunk_filter_and_append 10000 sample_rows5).drop 1).map (fun r => r.drop 1) =
      sample_rows5.filter estado_matches_sonora :=
  (filter_round_trip_amended sample_rows5 (by decide) (by decide) (by decide)).2.1

/-- Claim C7, counterexample: a year sequence with one filtered file
present, which fails to read, yields no merged dataset at all —
`merge_csv_years` returns the no-inputs result and its effect trace
contains no write — refuting "for every year sequence with at least one
filtered file, the merged dataset is the concatenation of all
FilteredOutput rows". -/
theorem merge_no_dataset_though_file_present :
    files_found lk_unreadable ["2019"] = 1
    ∧ (merge_csv_years lk_unreadable ["2019"]).1 = none
    ∧ (merge_csv_years lk_unreadable ["2019"]).2 =
        [FsOp.touch (merge_out_name ["2019"])] := by
  exact ⟨rfl, rfl, rfl⟩
